import Mathlib

/- Verification development for the prosocial matchmaking backend: a shallow
embedding of the matchmaking engine, the Redis-backed queue and match store,
the AI opponent simulator, and the push dispatcher's match-found
materialization, together with theorems checking the specification's claims
against the code. JavaScript numbers are modelled as rationals, Date.now()
as an explicit clock value threaded through the state, and Math.random()
draws as explicit parameters in [0, 1). -/

set_option maxHeartbeats 1000000

/-- JavaScript values that appear in the match records handed to the Redis
store: strings, numbers (modelled as rationals), booleans, null, and nested
objects. -/
inductive JVal where
  | str (s : String)
  | num (q : ℚ)
  | bool (b : Bool)
  | null
  | obj (fields : List (String × JVal))

/-- Decimal rendering of a JS number; integers print without a fractional
part, as in JavaScript. (Non-integral rationals would print as fractions
rather than decimals; no claim inspects such a string.) -/
def jsNumStr (q : ℚ) : String :=
  if q.den = 1 then toString q.num else toString q

mutual

/-- JSON.stringify as used on the flat descriptor objects of this codebase
(string escaping is not modelled; the serialized descriptors contain no
quotes or braces). -/
def jvalJsonStr : JVal → String
  | .str s => "\"" ++ s ++ "\""
  | .num q => jsNumStr q
  | .bool b => cond b "true" "false"
  | .null => "null"
  | .obj fs => "\x7b" ++ jvalObjStr fs ++ "\x7d"

/-- Comma-separated field list of a serialized JSON object. -/
def jvalObjStr : List (String × JVal) → String
  | [] => ""
  | [p] => "\"" ++ p.1 ++ "\":" ++ jvalJsonStr p.2
  | p :: q :: rest => "\"" ++ p.1 ++ "\":" ++ jvalJsonStr p.2 ++ "," ++ jvalObjStr (q :: rest)

end

/-- First value bound to a key in an association list (JS object lookup;
object literals have unique keys, so first = only). -/
def alookup {α : Type} (key : String) : List (String × α) → Option α
  | [] => none
  | (k, v) :: rest => if k = key then some v else alookup key rest

/-- Queue entry as built by the Engine's joinQueue and stored (serialized)
in the per-round sorted set, modelled structurally. -/
structure QueueEntry where
  participantId : String
  participantName : String
  roundNumber : ℤ
  skillLevel : ℚ
  treatmentGroup : String
  joinedAt : ℤ
  status : String
deriving DecidableEq, Repr

/-- State of the Redis store: per-key FIFO queues (sorted sets ordered by the
join-timestamp score; appending models nondecreasing scores), match hashes,
participant-status hashes, lock keys, and daily stat counters (the per-day
key prefix is elided; counters are keyed by stat field). -/
structure RedisStore where
  queues : String → List QueueEntry
  matchHashes : String → Option (String → Option String)
  statuses : String → (String → Option String)
  locks : String → Option String
  stats : String → ℤ

/-- Empty Redis store. -/
def emptyRedis : RedisStore :=
  { queues := fun _ => []
    matchHashes := fun _ => none
    statuses := fun _ => fun _ => none
    locks := fun _ => none
    stats := fun _ => 0 }

namespace RedisService

/-- Key of the match hash for a match id. -/
def matchKey (matchId : String) : String := "match:" ++ matchId

/-- Redis string coercion used by createMatch: null (and undefined) becomes
the empty string, objects are JSON-serialized, every other value becomes its
toString rendering. -/
def jvalToRedisStr : JVal → String
  | .null => ""
  | .obj fs => jvalJsonStr (.obj fs)
  | .str s => s
  | .num q => jsNumStr q
  | .bool b => cond b "true" "false"

/-- createMatch (part_006 lines 448-481): coerce every field of matchData to
a string, then hSet the match hash together with a fresh createdAt timestamp
and status forced to "active"; the spread object gives createdAt and status
precedence over like-named matchData fields, and hSet leaves unrelated
pre-existing fields of the hash in place. -/
def createMatch (store : RedisStore) (matchId : String)
    (matchData : List (String × JVal)) (now : ℤ) : RedisStore :=
  let key := matchKey matchId
  let old := (store.matchHashes key).getD (fun _ => none)
  let newHash : String → Option String := fun f =>
    if f = "createdAt" then some (toString now)
    else if f = "status" then some "active"
    else match alookup f matchData with
      | some v => some (jvalToRedisStr v)
      | none => old f
  { store with matchHashes := fun k => if k = key then some newHash else store.matchHashes k }

/-- getMatch: hGetAll of the match hash; a missing key reads as the empty
hash, since hGetAll returns an empty object. -/
def getMatch (store : RedisStore) (matchId : String) : String → Option String :=
  (store.matchHashes (matchKey matchId)).getD (fun _ => none)

end RedisService

/-- C10: RedisService.createMatch always stores the match hash with
status = "active" and a fresh createdAt timestamp, overwriting any status
value supplied in matchData; for every matchData input (including one whose
status is "completed", "cancelled" or "paused"), getMatch immediately after
createMatch returns status = "active". -/
theorem createMatch_forces_active_status (store : RedisStore) (matchId : String)
    (matchData : List (String × JVal)) (now : ℤ) :
    RedisService.getMatch (RedisService.createMatch store matchId matchData now) matchId "status"
        = some "active"
    ∧ RedisService.getMatch (RedisService.createMatch store matchId matchData now) matchId "createdAt"
        = some (toString now) := by
  constructor <;> simp [RedisService.getMatch, RedisService.createMatch]

/-- Listed round-trip fields of claim C7. -/
def c7Fields : List String :=
  ["id", "participant1_id", "participant2_id", "round_number", "isAI"]

/-- The round-trip property exactly as claim C7 states it (a statement of the
spec's words, for comparison with the code): each listed field read back by
getMatch equals the corresponding input value, the read-back string lifted to
a JVal and compared against the typed input, so that participant2_id = null
and a boolean isAI must come back as null and as a boolean. -/
def c7RoundTripsExactly (store : RedisStore) (matchId : String)
    (matchData : List (String × JVal)) (now : ℤ) : Prop :=
  ∀ f ∈ c7Fields,
    (RedisService.getMatch (RedisService.createMatch store matchId matchData now) matchId f).map JVal.str
      = alookup f matchData

/-- Concrete AI-match input for the C7 counterexample. -/
def c7AiInput : List (String × JVal) :=
  [("id", .str "m-1"), ("participant1_id", .str "p-1"), ("participant2_id", .null),
   ("round_number", .num 2), ("match_type", .str "human_vs_ai"), ("isAI", .bool true)]

/-- C7 counterexample: after createMatch of a concrete AI match, getMatch
returns the string "true" for isAI (not the boolean true) and the empty
string for participant2_id (not null), so the typed inputs do not round-trip
as the claim states. -/
theorem c7_counterexample : ¬ c7RoundTripsExactly emptyRedis "m-1" c7AiInput 0 := by
  intro h
  have hb := h "isAI" (by simp [c7Fields])
  simp [RedisService.getMatch, RedisService.createMatch, c7AiInput, alookup, emptyRedis,
    RedisService.jvalToRedisStr] at hb

/-- C7 amended: the round trip preserves every matchData field other than
status and createdAt up to the documented Redis string coercion: strings come
back unchanged, null comes back as the empty string, numbers as their decimal
rendering and booleans as "true"/"false". In particular id and
participant1_id round-trip exactly, participant2_id = null reads back as "",
round_number n reads back as toString n, and isAI reads back as
"true"/"false". -/
theorem createMatch_getMatch_roundtrip (store : RedisStore) (matchId : String)
    (matchData : List (String × JVal)) (now : ℤ) (f : String) (v : JVal)
    (hf1 : f ≠ "createdAt") (hf2 : f ≠ "status")
    (hv : alookup f matchData = some v) :
    RedisService.getMatch (RedisService.createMatch store matchId matchData now) matchId f
      = some (RedisService.jvalToRedisStr v) := by
  simp [RedisService.getMatch, RedisService.createMatch, hf1, hf2, hv]

/-- C7 amended witness: the round trip at the concrete AI-match input returns
the decimal string of the round number. -/
theorem createMatch_getMatch_roundtrip_witness :
    RedisService.getMatch (RedisService.createMatch emptyRedis "m-1" c7AiInput 0) "m-1" "round_number"
      = some "2" := by
  simpa [RedisService.jvalToRedisStr, jsNumStr] using
    createMatch_getMatch_roundtrip emptyRedis "m-1" c7AiInput 0 "round_number" (.num 2)
      (by decide) (by decide) (by simp [c7AiInput, alookup])

/-- AI roster opponent (static table in AIOpponentService). -/
structure AIOpponent where
  id : String
  name : String
  skillLevel : ℚ
  personality : String
  responsePattern : String
  description : String
deriving DecidableEq, Repr

/-- JS Array.reduce with a closest-distance comparator: the accumulator is
replaced only on a strictly smaller distance, so the earliest element wins
ties. Shared by findBestSkillMatch and selectOpponent, whose reduce lambdas
are identical. -/
def closestReduce {α : Type} (dist : α → ℚ) (x : α) (xs : List α) : α :=
  xs.foldl (fun closest current => if dist current < dist closest then current else closest) x

/-- The closest-distance reduce returns the first element of the list
attaining the minimum distance: it splits the list around the result, every
element strictly before it has strictly larger distance, and no element has
smaller distance. -/
theorem closestReduce_first {α : Type} (dist : α → ℚ) (x : α) (xs : List α) :
    ∃ l1 l2, x :: xs = l1 ++ closestReduce dist x xs :: l2
      ∧ (∀ c ∈ l1, dist (closestReduce dist x xs) < dist c)
      ∧ (∀ c ∈ x :: xs, dist (closestReduce dist x xs) ≤ dist c) := by
  induction xs generalizing x with
  | nil => exact ⟨[], [], rfl, by simp, by simp [closestReduce]⟩
  | cons y ys ih =>
    by_cases h : dist y < dist x
    · have hg : closestReduce dist x (y :: ys) = closestReduce dist y ys := by
        simp [closestReduce, List.foldl, h]
      obtain ⟨l1, l2, hdec, hpre, hmin⟩ := ih y
      rw [hg] at *
      refine ⟨x :: l1, l2, by rw [List.cons_append, ← hdec], ?_, ?_⟩
      · intro c hc
        rcases List.mem_cons.mp hc with rfl | hc
        · exact lt_of_le_of_lt (hmin y (by simp)) h
        · exact hpre c hc
      · intro c hc
        rcases List.mem_cons.mp hc with rfl | hc
        · exact le_of_lt (lt_of_le_of_lt (hmin y (by simp)) h)
        · exact hmin c hc
    · have hg : closestReduce dist x (y :: ys) = closestReduce dist x ys := by
        simp [closestReduce, List.foldl, h]
      obtain ⟨l1, l2, hdec, hpre, hmin⟩ := ih x
      rw [hg]
      set r := closestReduce dist x ys with hr
      cases l1 with
      | nil =>
        simp only [List.nil_append] at hdec
        injection hdec with h1 h2
        refine ⟨[], y :: ys, by rw [List.nil_append, ← h1], by simp, ?_⟩
        intro c hc
        rcases List.mem_cons.mp hc with rfl | hc
        · rw [← h1]
        · rcases List.mem_cons.mp hc with rfl | hc
          · rw [← h1]; exact not_lt.mp h
          · exact hmin c (List.mem_cons_of_mem x hc)
      | cons a l1' =>
        rw [List.cons_append] at hdec
        injection hdec with h1 h2
        subst h1
        refine ⟨x :: y :: l1', l2, ?_, ?_, ?_⟩
        · rw [List.cons_append, List.cons_append, ← h2]
        · intro c hc
          rcases List.mem_cons.mp hc with rfl | hc
          · exact hpre c (List.mem_cons_self c l1')
          · rcases List.mem_cons.mp hc with rfl | hc
            · exact lt_of_lt_of_le (hpre x (List.mem_cons_self x l1')) (not_lt.mp h)
            · exact hpre c (List.mem_cons_of_mem x hc)
        · intro c hc
          rcases List.mem_cons.mp hc with rfl | hc
          · exact hmin c (List.mem_cons_self c ys)
          · rcases List.mem_cons.mp hc with rfl | hc
            · exact le_trans (hmin x (List.mem_cons_self x ys)) (not_lt.mp h)
            · exact hmin c (List.mem_cons_of_mem x hc)

/-- ISO timestamp of a clock value, as written by new Date().toISOString();
only freshness and determinism in the clock matter to the claims, not the
textual format. -/
def isoTime (now : ℤ) : String := "t" ++ toString now

/-- Math.round: round half toward positive infinity. -/
def jsRound (q : ℚ) : ℤ := ⌊q + 1/2⌋

/-- Response-timing configuration of an AI opponent. -/
structure ResponseDelay where
  min : ℚ
  max : ℚ
  average : ℚ
deriving DecidableEq, Repr

/-- Accuracy configuration of an AI personality; JS fields absent from a
personality's entry read as undefined (falsy) and are modelled as false. -/
structure AccuracyVariation where
  baseAccuracy : ℚ
  variance : ℚ
  improvesOverTime : Bool := false
  rushesEasy : Bool := false
  consistent : Bool := false
  slowStart : Bool := false
deriving DecidableEq, Repr

/-- Behaviour flags of an AI personality. -/
structure BehaviorPattern where
  speedIncreasesWithScore : Bool
  takesRisks : Bool
  adaptToOpponent : Bool
  celebration : String
deriving DecidableEq, Repr

/-- The aiSettings object attached to an AI match. -/
structure AISettings where
  responseDelayMs : ResponseDelay
  accuracyVariation : AccuracyVariation
  behaviorPattern : BehaviorPattern
deriving DecidableEq, Repr

/-- Opponent descriptor as serialized into a match record's opponent field;
the field set varies by producer, with absent JS fields modelled as none.
JSON stringify (producer side) and parse (dispatcher side) round-trip, so the
parse is modelled as the identity on this structured value, while
oppDescToJVal below gives the serialized form. -/
structure OppDesc where
  id : Option String := none
  name : String
  participant_id : String
  skill_level : ℚ
  personality : Option String := none
  responsePattern : Option String := none
  description : Option String := none
deriving DecidableEq, Repr

/-- Serialized JSON form of an opponent descriptor, fields in source order. -/
def oppDescToJVal (o : OppDesc) : JVal :=
  .obj ((o.id.map (fun i => ("id", JVal.str i))).toList ++
    [("name", JVal.str o.name), ("participant_id", JVal.str o.participant_id),
     ("skill_level", JVal.num o.skill_level)] ++
    (o.personality.map (fun p => ("personality", JVal.str p))).toList ++
    (o.responsePattern.map (fun r => ("responsePattern", JVal.str r))).toList ++
    (o.description.map (fun d => ("description", JVal.str d))).toList)

/-- Response simulation result of simulateAIResponse. -/
structure AIResponse where
  isCorrect : Bool
  responseTimeMs : ℤ
  accuracy : ℚ
  questionNumber : ℤ
  difficulty : ℚ
deriving DecidableEq, Repr

/-- Match record as assembled by the Engine and by the AI service (the live
in-process object; serialization to the Redis hash goes through matchDataToJ
below). participant1_name and participant2_name are never set by these
producers and default to none. -/
structure MatchData where
  id : String
  participant1_id : String
  participant2_id : Option String
  round_number : ℤ
  match_type : String
  status : String
  created_at : String
  isAI : Bool
  opponent : OppDesc
  aiSettings : Option AISettings := none
  participant1_name : Option String := none
  participant2_name : Option String := none
deriving DecidableEq, Repr

/-- Serialized form of the responseDelayMs object. -/
def responseDelayToJVal (r : ResponseDelay) : JVal :=
  .obj [("min", .num r.min), ("max", .num r.max), ("average", .num r.average)]

/-- Serialized form of the accuracyVariation object (all flags are emitted;
the source omits absent ones, but no claim inspects this string). -/
def accuracyVariationToJVal (a : AccuracyVariation) : JVal :=
  .obj [("baseAccuracy", .num a.baseAccuracy), ("variance", .num a.variance),
    ("improvesOverTime", .bool a.improvesOverTime), ("rushesEasy", .bool a.rushesEasy),
    ("consistent", .bool a.consistent), ("slowStart", .bool a.slowStart)]

/-- Serialized form of the behaviorPattern object. -/
def behaviorPatternToJVal (b : BehaviorPattern) : JVal :=
  .obj [("speedIncreasesWithScore", .bool b.speedIncreasesWithScore),
    ("takesRisks", .bool b.takesRisks), ("adaptToOpponent", .bool b.adaptToOpponent),
    ("celebration", .str b.celebration)]

/-- Serialized form of the aiSettings object. -/
def aiSettingsToJVal (s : AISettings) : JVal :=
  .obj [("responseDelayMs", responseDelayToJVal s.responseDelayMs),
    ("accuracyVariation", accuracyVariationToJVal s.accuracyVariation),
    ("behaviorPattern", behaviorPatternToJVal s.behaviorPattern)]

/-- Field list handed to RedisService.createMatch for a match record; the
nested opponent descriptor and aiSettings are pre-stringified by the
producers, as in the source. -/
def matchDataToJ (m : MatchData) : List (String × JVal) :=
  [("id", .str m.id), ("participant1_id", .str m.participant1_id),
   ("participant2_id", match m.participant2_id with | some p => .str p | none => .null),
   ("round_number", .num (m.round_number : ℚ)), ("match_type", .str m.match_type),
   ("status", .str m.status), ("created_at", .str m.created_at),
   ("isAI", .bool m.isAI),
   ("opponent", .str (jvalJsonStr (oppDescToJVal m.opponent)))] ++
  (m.aiSettings.map (fun s => ("aiSettings", JVal.str (jvalJsonStr (aiSettingsToJVal s))))).toList

namespace AIOpponentService

/-- Static roster of 8 AI opponents (part_007 constructor). -/
def aiOpponents : List AIOpponent :=
  [⟨"ai_1", "Bot Alex", 7.2, "competitive", "fast", "Quick-thinking competitive strategist"⟩,
   ⟨"ai_2", "Bot Pat", 6.8, "collaborative", "medium", "Balanced and methodical approach"⟩,
   ⟨"ai_3", "Bot Charlie", 7.5, "analytical", "slow", "Deep analytical thinker"⟩,
   ⟨"ai_4", "Bot Riley", 6.5, "competitive", "medium", "Aggressive competitive player"⟩,
   ⟨"ai_5", "Bot Morgan", 7.8, "analytical", "fast", "Lightning-fast analytical mind"⟩,
   ⟨"ai_6", "Bot Casey", 6.0, "collaborative", "slow", "Thoughtful collaborative partner"⟩,
   ⟨"ai_7", "Bot Jordan", 8.0, "competitive", "fast", "Elite competitive challenger"⟩,
   ⟨"ai_8", "Bot Sam", 5.5, "analytical", "medium", "Careful analytical approach"⟩]

/-- Core selection of selectOpponent (part_007 lines 79-109): filter the
roster by the skill window; when some opponents qualify, pick one at random
(index = floor(u1 · count), u1 the Math.random() draw); otherwise fall back
to the roster opponent closest in skill (reduce keeps the earliest on ties).
The roster is nonempty, so the final fallback arm is unreachable. -/
def selectOpponentChoice (participantSkillLevel skillThreshold : ℚ) (u1 : ℚ) : AIOpponent :=
  let suitableOpponents := aiOpponents.filter
    (fun ai => decide (|ai.skillLevel - participantSkillLevel| ≤ skillThreshold))
  match suitableOpponents with
  | s :: rest => ((s :: rest)[(⌊u1 * ((s :: rest).length : ℚ)⌋).toNat]?).getD s
  | [] =>
    match aiOpponents with
    | a :: rest => closestReduce (fun ai => |ai.skillLevel - participantSkillLevel|) a rest
    | [] => ⟨"", "", 0, "", "", ""⟩

/-- randomizeSkillLevel: effective skill = base + (u − 0.5) · 0.6, clamped
into [1, 10] (u the Math.random() draw). -/
def randomizeSkillLevel (baseSkillLevel : ℚ) (u : ℚ) : ℚ :=
  let variation := (u - 1/2) * 0.6
  max 1 (min 10 (baseSkillLevel + variation))

/-- Result of selectOpponent: the chosen roster opponent spread together with
the randomized actualSkillLevel and a fresh match id. -/
structure SelectedOpponent where
  opp : AIOpponent
  actualSkillLevel : ℚ
  matchId : String
deriving DecidableEq, Repr

/-- selectOpponent: choose a roster opponent for the participant's skill and
attach the randomized effective skill (u1, u2 are the Math.random() draws;
mid the uuidv4() allocation). -/
def selectOpponent (participantSkillLevel skillThreshold : ℚ) (u1 u2 : ℚ)
    (mid : String) : SelectedOpponent :=
  let sel := selectOpponentChoice participantSkillLevel skillThreshold u1
  ⟨sel, randomizeSkillLevel sel.skillLevel u2, mid⟩

/-- getResponseDelay: table lookup with medium as the fallback. -/
def getResponseDelay (responsePattern : String) : ResponseDelay :=
  if responsePattern = "fast" then ⟨800, 2000, 1200⟩
  else if responsePattern = "medium" then ⟨2000, 4000, 3000⟩
  else if responsePattern = "slow" then ⟨4000, 7000, 5500⟩
  else ⟨2000, 4000, 3000⟩

/-- getAccuracyVariation: per-personality accuracy configuration with
collaborative as the fallback. -/
def getAccuracyVariation (personality : String) : AccuracyVariation :=
  if personality = "competitive" then
    { baseAccuracy := 0.85, variance := 0.1, improvesOverTime := true, rushesEasy := true }
  else if personality = "analytical" then
    { baseAccuracy := 0.88, variance := 0.05, improvesOverTime := true, slowStart := true }
  else
    { baseAccuracy := 0.80, variance := 0.08, consistent := true }

/-- getBehaviorPattern: per-personality behaviour flags with collaborative as
the fallback. -/
def getBehaviorPattern (personality : String) : BehaviorPattern :=
  if personality = "competitive" then ⟨true, true, true, "aggressive"⟩
  else if personality = "analytical" then ⟨false, false, true, "analytical"⟩
  else ⟨false, false, false, "modest"⟩

/-- createAIMatch (part_007 lines 153-184): select an opponent for the
participant's skill (default threshold 1.5) and assemble the human-vs-AI
match record with serialized opponent descriptor and AI settings. The two
Math.random() draws and the two uuidv4() allocations are explicit
parameters. -/
def createAIMatch (participantId : String) (roundNumber : ℤ)
    (participantSkillLevel : ℚ) (u1 u2 : ℚ) (oppMatchId matchId : String)
    (now : ℤ) : MatchData :=
  let aiOpponent := selectOpponent participantSkillLevel (3/2) u1 u2 oppMatchId
  { id := matchId
    participant1_id := participantId
    participant2_id := none
    round_number := roundNumber
    match_type := "human_vs_ai"
    status := "active"
    created_at := isoTime now
    isAI := true
    opponent := { id := some aiOpponent.opp.id
                  name := aiOpponent.opp.name
                  participant_id := aiOpponent.opp.id
                  skill_level := aiOpponent.actualSkillLevel
                  personality := some aiOpponent.opp.personality
                  responsePattern := some aiOpponent.opp.responsePattern
                  description := some aiOpponent.opp.description }
    aiSettings := some { responseDelayMs := getResponseDelay aiOpponent.opp.responsePattern
                         accuracyVariation := getAccuracyVariation aiOpponent.opp.personality
                         behaviorPattern := getBehaviorPattern aiOpponent.opp.personality } }

/-- Effective accuracy of simulateAIResponse before the clamp: the difficulty
adjustment, then the adaptation bonus — taken only when the behaviour pattern
both adapts to the opponent (with opponentCorrect supplied) and speeds up
with score and the opponent answered correctly — then the slow-start and
improvement adjustments, then the variance draw (u1 models Math.random()). -/
def effectiveAccuracyPre (s : AISettings) (questionNumber : ℤ) (difficulty : ℚ)
    (opponentCorrect : Option Bool) (u1 : ℚ) : ℚ :=
  let a0 := s.accuracyVariation.baseAccuracy - (difficulty - 5) * 0.02
  let a1 := if s.behaviorPattern.adaptToOpponent && opponentCorrect.isSome then
      (if s.behaviorPattern.speedIncreasesWithScore && (opponentCorrect == some true) then
        a0 + 0.05 else a0)
    else a0
  let a2 := if s.accuracyVariation.slowStart && decide (questionNumber ≤ 3) then a1 - 0.1 else a1
  let a3 := if s.accuracyVariation.improvesOverTime && decide (questionNumber > 5) then
    a2 + 0.05 else a2
  a3 + (u1 - 1/2) * s.accuracyVariation.variance

/-- simulateAIResponse (part_007 lines 280-328): clamp the effective accuracy
into [0,1], draw correctness (u2), sample the response time (u3) with the
personality speed adjustments, and round the reported values. -/
def simulateAIResponse (s : AISettings) (questionNumber : ℤ) (difficulty : ℚ)
    (opponentCorrect : Option Bool) (u1 u2 u3 : ℚ) : AIResponse :=
  let accuracy := max 0 (min 1 (effectiveAccuracyPre s questionNumber difficulty opponentCorrect u1))
  let rt0 := s.responseDelayMs.min + u3 * (s.responseDelayMs.max - s.responseDelayMs.min)
  let rt1 := if s.behaviorPattern.speedIncreasesWithScore && decide (questionNumber > 5) then
    rt0 * 0.8 else rt0
  let rt2 := if s.accuracyVariation.rushesEasy && decide (difficulty < 5) then rt1 * 0.7 else rt1
  { isCorrect := decide (u2 < accuracy)
    responseTimeMs := jsRound rt2
    accuracy := (jsRound (accuracy * 100) : ℚ) / 100
    questionNumber := questionNumber
    difficulty := difficulty }

end AIOpponentService

/-- Suitable-opponent filter of selectOpponent, named for the C4 theorems. -/
def suitableFilter (skill threshold : ℚ) : List AIOpponent :=
  AIOpponentService.aiOpponents.filter
    (fun ai => decide (|ai.skillLevel - skill| ≤ threshold))

/-- When the suitable set is nonempty, the randomly indexed pick of
selectOpponentChoice lands inside it (the index floor(u1 · count) is in range
for u1 ∈ [0,1)). -/
theorem selectOpponentChoice_suitable_mem (skill threshold u1 : ℚ)
    (hu1a : 0 ≤ u1) (hu1b : u1 < 1) (s : AIOpponent) (rest : List AIOpponent)
    (hfil : suitableFilter skill threshold = s :: rest) :
    AIOpponentService.selectOpponentChoice skill threshold u1 ∈ s :: rest := by
  have hlen : (0 : ℚ) < ((s :: rest).length : ℚ) := by
    exact_mod_cast Nat.succ_pos rest.length
  have hflt : ⌊u1 * ((s :: rest).length : ℚ)⌋ < ((s :: rest).length : ℤ) := by
    rw [Int.floor_lt]
    push_cast
    nlinarith
  have hfge : (0 : ℤ) ≤ ⌊u1 * ((s :: rest).length : ℚ)⌋ :=
    Int.floor_nonneg.mpr (by positivity)
  have hidx : (⌊u1 * ((s :: rest).length : ℚ)⌋).toNat < (s :: rest).length := by omega
  have hch : AIOpponentService.selectOpponentChoice skill threshold u1
      = ((s :: rest)[(⌊u1 * ((s :: rest).length : ℚ)⌋).toNat]?).getD s := by
    rw [AIOpponentService.selectOpponentChoice]
    rw [show AIOpponentService.aiOpponents.filter
        (fun ai => decide (|ai.skillLevel - skill| ≤ threshold)) = s :: rest from hfil]
  rw [hch, List.getElem?_eq_getElem hidx]
  exact List.getElem_mem _

/-- When the suitable set is empty, selectOpponentChoice is the
closest-distance reduce over the whole roster: it returns the first roster
opponent attaining the minimum skill distance. -/
theorem selectOpponentChoice_fallback (skill threshold u1 : ℚ)
    (hfil : suitableFilter skill threshold = []) :
    ∃ l1 l2, AIOpponentService.aiOpponents
        = l1 ++ (AIOpponentService.selectOpponentChoice skill threshold u1) :: l2
      ∧ (∀ c ∈ l1, |(AIOpponentService.selectOpponentChoice skill threshold u1).skillLevel - skill|
          < |c.skillLevel - skill|)
      ∧ (∀ c ∈ AIOpponentService.aiOpponents,
          |(AIOpponentService.selectOpponentChoice skill threshold u1).skillLevel - skill|
            ≤ |c.skillLevel - skill|) := by
  rcases hros : AIOpponentService.aiOpponents with _ | ⟨a, rest⟩
  · exact absurd hros (by simp [AIOpponentService.aiOpponents])
  · have hch : AIOpponentService.selectOpponentChoice skill threshold u1
        = closestReduce (fun ai => |ai.skillLevel - skill|) a rest := by
      rw [AIOpponentService.selectOpponentChoice]
      rw [show AIOpponentService.aiOpponents.filter
          (fun ai => decide (|ai.skillLevel - skill| ≤ threshold)) = [] from hfil, hros]
    obtain ⟨l1, l2, hdec, hpre, hmin⟩ :=
      closestReduce_first (fun ai => |ai.skillLevel - skill|) a rest
    refine ⟨l1, l2, ?_, ?_, ?_⟩
    · rw [hch]; exact hdec
    · intro c hc; rw [hch]; exact hpre c hc
    · intro c hc; rw [hch]; exact hmin c hc

/-- The chosen opponent is always a member of the static roster. -/
theorem selectOpponentChoice_mem (skill threshold u1 : ℚ)
    (hu1a : 0 ≤ u1) (hu1b : u1 < 1) :
    AIOpponentService.selectOpponentChoice skill threshold u1
      ∈ AIOpponentService.aiOpponents := by
  rcases hfil : suitableFilter skill threshold with _ | ⟨s, rest⟩
  · obtain ⟨l1, l2, hdec, -, -⟩ := selectOpponentChoice_fallback skill threshold u1 hfil
    rw [hdec]
    exact List.mem_append_right l1 (List.mem_cons_self _ _)
  · have hmem := selectOpponentChoice_suitable_mem skill threshold u1 hu1a hu1b s rest hfil
    rw [← hfil] at hmem
    exact List.mem_of_mem_filter hmem

/-- Every roster opponent's base skill lies in [1, 10] (in fact in
[5.5, 8.0]), so the ±0.3 clamp in randomizeSkillLevel never engages beyond
the variation itself. -/
theorem aiOpponents_skill_range :
    ∀ ai ∈ AIOpponentService.aiOpponents, 1 ≤ ai.skillLevel ∧ ai.skillLevel ≤ 10 := by
  intro ai h
  simp only [AIOpponentService.aiOpponents, List.mem_cons, List.not_mem_nil, or_false] at h
  rcases h with rfl | rfl | rfl | rfl | rfl | rfl | rfl | rfl <;> constructor <;> norm_num

/-- For a base skill in [1, 10] and a draw u ∈ [0,1), the randomized skill
differs from the base by at most 0.3. -/
theorem randomizeSkillLevel_bound (b u : ℚ) (hb1 : 1 ≤ b) (hb2 : b ≤ 10)
    (h0 : 0 ≤ u) (h1 : u < 1) :
    |AIOpponentService.randomizeSkillLevel b u - b| ≤ 3/10 := by
  have hv1 : -(3/10 : ℚ) ≤ (u - 1/2) * 0.6 := by nlinarith
  have hv2 : ((u : ℚ) - 1/2) * 0.6 ≤ 3/10 := by nlinarith
  rw [AIOpponentService.randomizeSkillLevel, abs_le]
  constructor
  · have hmin : b - 3/10 ≤ min 10 (b + (u - 1/2) * 0.6) := le_min (by linarith) (by linarith)
    have := le_max_right (1 : ℚ) (min 10 (b + (u - 1/2) * 0.6))
    linarith
  · have hmax : max (1 : ℚ) (min 10 (b + (u - 1/2) * 0.6)) ≤ b + 3/10 :=
      max_le (by linarith) (le_trans (min_le_right _ _) (by linarith))
    linarith

/-- C4 counterexample: at skill 7 and threshold 1.5 every roster opponent is
suitable, and the Math.random() draw u1 = 1/2 selects index
floor(1/2 · 8) = 4, i.e. "ai_5" (Bot Morgan) — not the FIFO-earliest suitable
opponent "ai_1" (Bot Alex) — so selectOpponent neither returns the first
suitable opponent nor is deterministic given only skill and threshold. -/
theorem selectOpponent_counterexample :
    (AIOpponentService.selectOpponentChoice 7 (3/2) (1/2)).id = "ai_5"
    ∧ (suitableFilter 7 (3/2)).head?.map AIOpponent.id = some "ai_1"
    ∧ ("ai_5" : String) ≠ "ai_1" := by
  have hfil : suitableFilter 7 (3/2) = AIOpponentService.aiOpponents := by
    norm_num [suitableFilter, AIOpponentService.aiOpponents, List.filter_cons,
      List.filter_nil, abs_le]
  refine ⟨?_, by rw [hfil]; rfl, by decide⟩
  norm_num [AIOpponentService.selectOpponentChoice, AIOpponentService.aiOpponents,
    List.filter_cons, List.filter_nil, abs_le, List.getElem?_cons_succ, List.getElem?_cons_zero]
  rfl

/-- C4 amended: selectOpponent applies the skill window over the static
roster, but when at least one roster opponent lies within the threshold it
returns a member of the suitable set chosen by the uniform random draw
(index floor(u1 · count)) — the choice depends on the draw and is not the
FIFO-earliest; only when no opponent qualifies does it deterministically
return the first roster opponent minimizing the skill distance (earliest on
ties); the returned actualSkillLevel differs from the chosen opponent's base
skill by at most 0.3. -/
theorem selectOpponent_spec (skill threshold u1 u2 : ℚ) (mid : String)
    (hu1a : 0 ≤ u1) (hu1b : u1 < 1) (hu2a : 0 ≤ u2) (hu2b : u2 < 1) :
    (suitableFilter skill threshold ≠ [] →
      (AIOpponentService.selectOpponent skill threshold u1 u2 mid).opp
        ∈ suitableFilter skill threshold)
    ∧ (suitableFilter skill threshold = [] →
      ∃ l1 l2, AIOpponentService.aiOpponents
          = l1 ++ (AIOpponentService.selectOpponent skill threshold u1 u2 mid).opp :: l2
        ∧ (∀ c ∈ l1,
            |(AIOpponentService.selectOpponent skill threshold u1 u2 mid).opp.skillLevel - skill|
              < |c.skillLevel - skill|)
        ∧ (∀ c ∈ AIOpponentService.aiOpponents,
            |(AIOpponentService.selectOpponent skill threshold u1 u2 mid).opp.skillLevel - skill|
              ≤ |c.skillLevel - skill|))
    ∧ |(AIOpponentService.selectOpponent skill threshold u1 u2 mid).actualSkillLevel
        - (AIOpponentService.selectOpponent skill threshold u1 u2 mid).opp.skillLevel| ≤ 3/10 := by
  have hopp : (AIOpponentService.selectOpponent skill threshold u1 u2 mid).opp
      = AIOpponentService.selectOpponentChoice skill threshold u1 := rfl
  refine ⟨?_, ?_, ?_⟩
  · intro hne
    rcases hfil : suitableFilter skill threshold with _ | ⟨s, rest⟩
    · exact absurd hfil hne
    · rw [hopp]
      exact selectOpponentChoice_suitable_mem skill threshold u1 hu1a hu1b s rest hfil
  · intro hfil
    rw [hopp]
    exact selectOpponentChoice_fallback skill threshold u1 hfil
  · have hmem := selectOpponentChoice_mem skill threshold u1 hu1a hu1b
    obtain ⟨hb1, hb2⟩ := aiOpponents_skill_range _ hmem
    have hact : (AIOpponentService.selectOpponent skill threshold u1 u2 mid).actualSkillLevel
        = AIOpponentService.randomizeSkillLevel
            (AIOpponentService.selectOpponentChoice skill threshold u1).skillLevel u2 := rfl
    rw [hopp, hact]
    exact randomizeSkillLevel_bound _ u2 hb1 hb2 hu2a hu2b

/-- C4 amended witness: the proved selection properties at skill 7,
threshold 1.5, draws u1 = 1/2 and u2 = 0. -/
theorem selectOpponent_spec_witness :
    (AIOpponentService.selectOpponent 7 (3/2) (1/2) 0 "m-ai").opp ∈ suitableFilter 7 (3/2)
    ∧ |(AIOpponentService.selectOpponent 7 (3/2) (1/2) 0 "m-ai").actualSkillLevel
        - (AIOpponentService.selectOpponent 7 (3/2) (1/2) 0 "m-ai").opp.skillLevel| ≤ 3/10 := by
  have h := selectOpponent_spec 7 (3/2) (1/2) 0 "m-ai"
    (by norm_num) (by norm_num) (by norm_num) (by norm_num)
  have hfil : suitableFilter 7 (3/2) = AIOpponentService.aiOpponents := by
    norm_num [suitableFilter, AIOpponentService.aiOpponents, List.filter_cons,
      List.filter_nil, abs_le]
  refine ⟨h.1 ?_, h.2.2⟩
  rw [hfil]
  simp [AIOpponentService.aiOpponents]

/-- AI settings as derived for an analytical opponent. -/
def analyticalSettings : AISettings :=
  { responseDelayMs := AIOpponentService.getResponseDelay "slow"
    accuracyVariation := AIOpponentService.getAccuracyVariation "analytical"
    behaviorPattern := AIOpponentService.getBehaviorPattern "analytical" }

/-- AI settings as derived for a competitive opponent. -/
def competitiveSettings : AISettings :=
  { responseDelayMs := AIOpponentService.getResponseDelay "fast"
    accuracyVariation := AIOpponentService.getAccuracyVariation "competitive"
    behaviorPattern := AIOpponentService.getBehaviorPattern "competitive" }

/-- C8 counterexample: with analytical settings (adaptToOpponent = true per
the personality table), question 4, difficulty 5 and a neutral variance draw,
a correct opponent yields accuracy 0.88 = 22/25 — identical to an incorrect
opponent and lacking the claimed +0.05 bonus (which would give 0.93): the
bonus is additionally gated on speedIncreasesWithScore, which the analytical
personality lacks. -/
theorem adaptation_counterexample :
    (AIOpponentService.simulateAIResponse analyticalSettings 4 5 (some true) (1/2) 0 0).accuracy
      = 22/25
    ∧ (AIOpponentService.simulateAIResponse analyticalSettings 4 5 (some true) (1/2) 0 0).accuracy
      = (AIOpponentService.simulateAIResponse analyticalSettings 4 5 (some false) (1/2) 0 0).accuracy
    ∧ ((22 : ℚ)/25 ≠ 88/100 + 5/100) := by
  have hacc : ∀ (s : AISettings) (q : ℤ) (d : ℚ) (oc : Option Bool) (u1 u2 u3 : ℚ),
      (AIOpponentService.simulateAIResponse s q d oc u1 u2 u3).accuracy
        = (jsRound (max 0 (min 1 (AIOpponentService.effectiveAccuracyPre s q d oc u1)) * 100) : ℚ) / 100 :=
    fun _ _ _ _ _ _ _ => rfl
  have hpre : ∀ oc : Option Bool,
      AIOpponentService.effectiveAccuracyPre analyticalSettings 4 5 oc (1/2) = 22/25 := by
    intro oc
    simp [analyticalSettings, AIOpponentService.getAccuracyVariation,
      AIOpponentService.getBehaviorPattern, AIOpponentService.getResponseDelay,
      AIOpponentService.effectiveAccuracyPre]
    norm_num
  have hnum : (jsRound (max 0 (min 1 (22/25 : ℚ)) * 100) : ℚ) / 100 = 22/25 := by
    rw [show max 0 (min 1 (22/25 : ℚ)) = 22/25 by norm_num, jsRound]
    norm_num
  refine ⟨?_, ?_, by norm_num⟩
  · rw [hacc, hpre]; exact hnum
  · rw [hacc, hacc, hpre, hpre]

/-- C8 amended: the +0.05 adaptation bonus is applied only when the behaviour
pattern has both adaptToOpponent and speedIncreasesWithScore — of the
personality table, competitive only. An analytical opponent's simulated
response is entirely independent of opponentCorrect; a competitive opponent
facing a correct opponent gains exactly 0.05 of pre-clamp effective accuracy
over one facing an incorrect opponent; and the reported accuracy is always
clamped into [0, 1]. -/
theorem adaptation_bonus_spec (s : AISettings) (q : ℤ) (d : ℚ) (oc : Option Bool)
    (u1 u2 u3 : ℚ) :
    (AIOpponentService.simulateAIResponse analyticalSettings q d oc u1 u2 u3
      = AIOpponentService.simulateAIResponse analyticalSettings q d none u1 u2 u3)
    ∧ (AIOpponentService.effectiveAccuracyPre competitiveSettings q d (some true) u1
      = AIOpponentService.effectiveAccuracyPre competitiveSettings q d (some false) u1 + 5/100)
    ∧ (0 ≤ (AIOpponentService.simulateAIResponse s q d oc u1 u2 u3).accuracy
      ∧ (AIOpponentService.simulateAIResponse s q d oc u1 u2 u3).accuracy ≤ 1) := by
  refine ⟨?_, ?_, ?_, ?_⟩
  · have hpregen : AIOpponentService.effectiveAccuracyPre analyticalSettings q d oc u1
        = AIOpponentService.effectiveAccuracyPre analyticalSettings q d none u1 := by
      simp [analyticalSettings, AIOpponentService.getAccuracyVariation,
        AIOpponentService.getBehaviorPattern, AIOpponentService.getResponseDelay,
        AIOpponentService.effectiveAccuracyPre]
    simp only [AIOpponentService.simulateAIResponse]
    rw [hpregen]
  · simp [competitiveSettings, AIOpponentService.getAccuracyVariation,
      AIOpponentService.getBehaviorPattern, AIOpponentService.getResponseDelay,
      AIOpponentService.effectiveAccuracyPre]
    split_ifs <;> norm_num <;> ring
  · have h0 : (0 : ℚ) ≤ max 0 (min 1 (AIOpponentService.effectiveAccuracyPre s q d oc u1)) :=
      le_max_left _ _
    have hround : (0 : ℤ) ≤ jsRound (max 0 (min 1 (AIOpponentService.effectiveAccuracyPre s q d oc u1)) * 100) := by
      rw [jsRound]
      exact Int.le_floor.mpr (by push_cast; nlinarith)
    have hacc : (AIOpponentService.simulateAIResponse s q d oc u1 u2 u3).accuracy
        = (jsRound (max 0 (min 1 (AIOpponentService.effectiveAccuracyPre s q d oc u1)) * 100) : ℚ) / 100 := rfl
    rw [hacc]
    positivity
  · have h1 : max 0 (min 1 (AIOpponentService.effectiveAccuracyPre s q d oc u1)) ≤ 1 :=
      max_le (by norm_num) (min_le_left _ _)
    have hround : jsRound (max 0 (min 1 (AIOpponentService.effectiveAccuracyPre s q d oc u1)) * 100) ≤ 100 := by
      rw [jsRound]
      have hle : max 0 (min 1 (AIOpponentService.effectiveAccuracyPre s q d oc u1)) * 100 + 1/2
          ≤ (100 : ℚ) + 1/2 := by nlinarith
      calc ⌊max 0 (min 1 (AIOpponentService.effectiveAccuracyPre s q d oc u1)) * 100 + 1/2⌋
          ≤ ⌊(100 : ℚ) + 1/2⌋ := Int.floor_le_floor hle
        _ = 100 := by norm_num
    have hacc : (AIOpponentService.simulateAIResponse s q d oc u1 u2 u3).accuracy
        = (jsRound (max 0 (min 1 (AIOpponentService.effectiveAccuracyPre s q d oc u1)) * 100) : ℚ) / 100 := rfl
    rw [hacc, div_le_one (by norm_num)]
    exact_mod_cast hround

/-- Pointwise update of a string-keyed map. -/
def updMap {α : Type} (f : String → α) (key : String) (v : α) : String → α :=
  fun k => if k = key then v else f k

/-- Per-search record of the Engine's activeSearches map. -/
structure SearchData where
  startTime : ℤ
  roundNumber : ℤ
  searchAttempts : ℕ
deriving DecidableEq, Repr

/-- Row of the persistent tournament_matches table as consulted by
getActiveMatchForParticipant (held most-recent-first). -/
structure DbMatch where
  id : String
  participant1_id : String
  participant2_id : Option String
  round_number : ℤ
  status : String
deriving DecidableEq, Repr

/-- Row of the participants table used for opponent-name lookup. -/
structure DbParticipant where
  id : String
  name : Option String
deriving DecidableEq, Repr

/-- Persistent database state visible to the Engine. -/
structure Database where
  tournamentMatches : List DbMatch
  participants : List DbParticipant
deriving DecidableEq, Repr

namespace DatabaseService

/-- getActiveMatchForParticipant (DatabaseService.js lines 491-525): most
recent active or pending tournament match of the participant in the round,
none otherwise. -/
def getActiveMatchForParticipant (db : Database) (participantId : String)
    (roundNumber : ℤ) : Option DbMatch :=
  (db.tournamentMatches.filter (fun m => decide
    ((m.participant1_id = participantId ∨ m.participant2_id = some participantId)
      ∧ m.round_number = roundNumber
      ∧ (m.status = "active" ∨ m.status = "pending")))).head?

/-- getParticipant: row lookup by id. -/
def getParticipant (db : Database) (id : String) : Option DbParticipant :=
  (db.participants.filter (fun p => decide (p.id = id))).head?

/-- createTournamentMatch: idempotent upsert of the mirrored row, modelled as
prepending it (most-recent-first order). -/
def createTournamentMatch (db : Database) (m : MatchData) : Database :=
  { db with tournamentMatches :=
      ⟨m.id, m.participant1_id, m.participant2_id, m.round_number, m.status⟩
        :: db.tournamentMatches }

end DatabaseService

namespace NameUtils

/-- Gender-neutral bot names table (logger.js / nameUtils). -/
def genderNeutralBotNames : List String :=
  ["Alex", "Jordan", "Taylor", "Casey", "Morgan", "Riley", "Quinn", "Sage",
   "River", "Avery", "Blake", "Cameron", "Drew", "Emery", "Finley", "Gray",
   "Harper", "Indigo", "Kai", "Lane", "Max", "Nova", "Ocean", "Parker",
   "Reese", "Skylar", "Tatum", "Vale", "Winter", "Zion"]

/-- JS ToInt32 coercion, the effect of the bitwise-and step of the hash. -/
def toInt32 (n : ℤ) : ℤ :=
  let m := n % 4294967296
  if m ≥ 2147483648 then m - 4294967296 else m

/-- One step of the bot-name hash:
hash = toInt32(toInt32(hash << 5) - hash + charCode). -/
def botHashStep (h : ℤ) (c : Char) : ℤ :=
  toInt32 (toInt32 (h * 32) - h + (c.toNat : ℤ))

/-- getBotName: deterministic "Bot <name>" pick hashed from the last 4
characters of the id. -/
def getBotName (participantId : String) : String :=
  let idSuffix := participantId.takeRight 4
  let hash := idSuffix.toList.foldl botHashStep 0
  "Bot " ++ (genderNeutralBotNames[hash.natAbs % genderNeutralBotNames.length]?).getD "Alex"

/-- getPlayerDisplayName: bot name for bots; the first name of a named human;
otherwise the "Player <last-4-of-id>" placeholder. -/
def getPlayerDisplayName (participant : DbParticipant) (isBot : Bool := false) : String :=
  if isBot then getBotName participant.id
  else match participant.name with
    | some n =>
      if n ≠ "" then (n.splitOn " ").headD ""
      else "Player " ++ participant.id.takeRight 4
    | none => "Player " ++ participant.id.takeRight 4

end NameUtils

namespace Config

/-- Default AI-fallback deadline (config/index.js, HUMAN_SEARCH_TIMEOUT_MS). -/
def humanSearchTimeoutMs : ℚ := 45000

/-- Default skill-window radius (SKILL_MATCHING_THRESHOLD). -/
def skillMatchingThreshold : ℚ := 3/2

end Config

namespace RedisService

/-- Key of a round's queue. -/
def queueKey (roundNumber : ℤ) : String := "queue:round:" ++ toString roundNumber

/-- Key of a participant's status hash. -/
def statusKey (participantId : String) : String :=
  "participant:" ++ participantId ++ ":status"

/-- getParticipantStatus: hGetAll of the status hash (the empty hash when
absent). -/
def getParticipantStatus (store : RedisStore) (participantId : String) :
    String → Option String :=
  store.statuses (statusKey participantId)

/-- setParticipantStatus: hSet status and lastUpdated together with the extra
data fields into the status hash (later fields override, unrelated existing
fields are kept; the TTL refresh is not modelled). -/
def setParticipantStatus (store : RedisStore) (participantId : String) (status : String)
    (data : List (String × String)) (now : ℤ) : RedisStore :=
  let key := statusKey participantId
  let old := store.statuses key
  let fields := [("status", status), ("lastUpdated", toString now)] ++ data
  let newHash : String → Option String := fun f =>
    match alookup f fields.reverse with
    | some v => some v
    | none => old f
  { store with statuses := updMap store.statuses key newHash }

/-- addToQueue (part_006 lines 349-379): refuse when the participant's status
is already "matched"; otherwise append the entry with a fresh joinedAt score
and status "waiting" (zAdd with score = now; the 10-minute key TTL is not
modelled). -/
def addToQueue (store : RedisStore) (key : String) (participantData : QueueEntry)
    (now : ℤ) : Bool × RedisStore :=
  if getParticipantStatus store participantData.participantId "status" = some "matched" then
    (false, store)
  else
    let queueEntry := { participantData with joinedAt := now, status := "waiting" }
    (true, { store with queues := updMap store.queues key (store.queues key ++ [queueEntry]) })

/-- Removal of the first stored entry of a participant, as removeFromQueue's
scan-and-zRem loop does. -/
def removeFirstEntry (participantId : String) : List QueueEntry → List QueueEntry
  | [] => []
  | e :: rest =>
    if e.participantId = participantId then rest
    else e :: removeFirstEntry participantId rest

/-- removeFromQueue: linear scan deleting the participant's first entry. -/
def removeFromQueue (store : RedisStore) (key : String) (participantId : String) : RedisStore :=
  { store with queues := updMap store.queues key (removeFirstEntry participantId (store.queues key)) }

/-- getQueueEntries: parsed entries in FIFO order, excluding the given
participant when the exclusion argument is truthy (a nonempty string). -/
def getQueueEntries (store : RedisStore) (key : String)
    (excludeParticipantId : Option String) : List QueueEntry :=
  let entries := store.queues key
  match excludeParticipantId with
  | some e => if e ≠ "" then entries.filter (fun c => decide (c.participantId ≠ e)) else entries
  | none => entries

/-- getQueuePosition: 1-based FIFO position, or −1 when absent. -/
def getQueuePosition (store : RedisStore) (key : String) (participantId : String) : ℤ :=
  match (store.queues key).findIdx? (fun e => decide (e.participantId = participantId)) with
  | some i => (i : ℤ) + 1
  | none => -1

/-- incrementMatchStats: hIncrBy on the daily stats counter. -/
def incrementMatchStats (store : RedisStore) (statType : String) : RedisStore :=
  { store with stats := updMap store.stats statType (store.stats statType + 1) }

/-- acquireLock: SET NX — succeeds exactly when the key is absent (the PX
expiry is the crash safety net and is not modelled). -/
def acquireLock (store : RedisStore) (lockKey lockValue : String) : Bool × RedisStore :=
  match store.locks lockKey with
  | some _ => (false, store)
  | none => (true, { store with locks := updMap store.locks lockKey (some lockValue) })

/-- releaseLock: scripted compare-and-delete — the key is removed only while
it still holds the caller's value. -/
def releaseLock (store : RedisStore) (lockKey lockValue : String) : Bool × RedisStore :=
  if store.locks lockKey = some lockValue then
    (true, { store with locks := updMap store.locks lockKey none })
  else (false, store)

end RedisService

/-- Observable actions of the Engine, recorded in an event trace so that
claims about steps not taken (no immediate-match attempt, no scanner, no
timer, no callback) are statable on the final state. -/
inductive EngineEvent where
  | findImmediate (participantId : String)
  | scannerStarted (participantId : String)
  | timerArmed (participantId : String)
  | matchFoundCallback (matchId : String)
deriving DecidableEq, Repr

/-- Combined in-process and shared state threaded through the Engine
operations: the Redis store, the persistent database, the activeSearches and
timer maps, the set of running continuous-search intervals, the event trace,
the clock (Date.now()), and the uuid supply. -/
structure EngineState where
  redis : RedisStore
  db : Database
  activeSearches : List (String × SearchData)
  matchTimeouts : List String
  scanners : List String
  events : List EngineEvent
  now : ℤ
  nextId : ℕ

/-- Fresh uuidv4 allocation, modelled by a counter-backed supply. -/
def freshId (st : EngineState) : String := "uuid-" ++ toString st.nextId

/-- Advance the uuid supply. -/
def bumpId (st : EngineState) : EngineState := { st with nextId := st.nextId + 1 }

/-- Participant input of startMatchmaking. The optional fields follow the JS
truthiness defaults at their use sites (an absent or empty name and group,
and the zero-skill default, are resolved inside joinQueue). -/
structure ParticipantData where
  participantId : String
  participantName : Option String := none
  roundNumber : ℤ
  skillLevel : ℚ
  treatmentGroup : Option String := none
deriving DecidableEq, Repr

namespace MatchmakingEngine

/-- findBestSkillMatch (MatchmakingEngine.js lines 190-212), with the
configured threshold passed explicitly: null on an empty list; else filter
the waiting list by the skill window and return its first element; when none
qualifies, reduce to the closest skill level (earliest on ties). -/
def findBestSkillMatch (threshold : ℚ) (participantSkillLevel : ℚ)
    (waitingParticipants : List QueueEntry) : Option QueueEntry :=
  match waitingParticipants with
  | [] => none
  | w :: rest =>
    match (w :: rest).filter
        (fun participant => decide (|participant.skillLevel - participantSkillLevel| ≤ threshold)) with
    | [] => some (closestReduce (fun c => |c.skillLevel - participantSkillLevel|) w rest)
    | s :: _ => some s

/-- Lookup in the activeSearches map. -/
def lookupSearch (activeSearches : List (String × SearchData)) (participantId : String) :
    Option SearchData := alookup participantId activeSearches

/-- Deletion from the activeSearches map. -/
def removeSearch (activeSearches : List (String × SearchData)) (participantId : String) :
    List (String × SearchData) :=
  activeSearches.filter (fun p => decide (p.1 ≠ participantId))

/-- The queue entry joinQueue builds, with the JS || defaults: an absent or
empty name falls back to the display name, a zero skill to 7 (JS falsy 0),
an absent or empty group to "control". -/
def joinQueueEntry (pd : ParticipantData) (now : ℤ) : QueueEntry :=
  { participantId := pd.participantId
    participantName :=
      match pd.participantName with
      | some n => if n ≠ "" then n else NameUtils.getPlayerDisplayName ⟨pd.participantId, none⟩
      | none => NameUtils.getPlayerDisplayName ⟨pd.participantId, none⟩
    roundNumber := pd.roundNumber
    skillLevel := if pd.skillLevel = 0 then 7 else pd.skillLevel
    treatmentGroup :=
      match pd.treatmentGroup with
      | some g => if g ≠ "" then g else "control"
      | none => "control"
    joinedAt := now
    status := "waiting" }

/-- joinQueue (lines 218-260): refuse when the Redis status is already
"matched" or the persistent database already holds an active match for the
round; otherwise build the queue entry, add it via addToQueue (whose own
rejection value is ignored) and bump queue_joins. Returns the entry on the
enqueue path and none on a rejection. -/
def joinQueue (pd : ParticipantData) (st : EngineState) : Option QueueEntry × EngineState :=
  if RedisService.getParticipantStatus st.redis pd.participantId "status" = some "matched" then
    (none, st)
  else if (DatabaseService.getActiveMatchForParticipant st.db pd.participantId
      pd.roundNumber).isSome then
    (none, st)
  else
    let entry := joinQueueEntry pd st.now
    let add := RedisService.addToQueue st.redis (RedisService.queueKey pd.roundNumber) entry st.now
    let redis2 := RedisService.incrementMatchStats add.2 "queue_joins"
    (some entry, { st with redis := redis2 })

/-- createHumanMatch (lines 391-468): refuse a self-match before any write;
otherwise resolve participant2's display name (from the queue entry, else the
database, else the placeholder), assemble the live match record, store it in
Redis, mirror it to the database, set both statuses to "matched", dequeue
both participants and bump human_matches. -/
def createHumanMatch (participant1Data : ParticipantData) (participant2Data : QueueEntry)
    (st : EngineState) : Except String MatchData × EngineState :=
  if participant1Data.participantId = participant2Data.participantId then
    (.error "Self-match attempted", st)
  else
    let matchId := freshId st
    let st1 := bumpId st
    let participant2Name :=
      if participant2Data.participantName ≠ "" then participant2Data.participantName
      else
        match DatabaseService.getParticipant st1.db participant2Data.participantId with
        | some info => NameUtils.getPlayerDisplayName info
        | none => NameUtils.getPlayerDisplayName ⟨participant2Data.participantId, none⟩
    let matchData : MatchData :=
      { id := matchId
        participant1_id := participant1Data.participantId
        participant2_id := some participant2Data.participantId
        round_number := participant1Data.roundNumber
        match_type := "live"
        status := "active"
        created_at := isoTime st1.now
        isAI := false
        opponent := { name := participant2Name
                      participant_id := participant2Data.participantId
                      skill_level := participant2Data.skillLevel } }
    let redis1 := RedisService.createMatch st1.redis matchId (matchDataToJ matchData) st1.now
    let db1 := DatabaseService.createTournamentMatch st1.db matchData
    let redis2 := RedisService.setParticipantStatus redis1 participant1Data.participantId
      "matched" [("matchId", matchId)] st1.now
    let redis3 := RedisService.setParticipantStatus redis2 participant2Data.participantId
      "matched" [("matchId", matchId)] st1.now
    let qk := RedisService.queueKey participant1Data.roundNumber
    let redis4 := RedisService.removeFromQueue redis3 qk participant1Data.participantId
    let redis5 := RedisService.removeFromQueue redis4 qk participant2Data.participantId
    let redis6 := RedisService.incrementMatchStats redis5 "human_matches"
    (.ok matchData, { st1 with redis := redis6, db := db1 })

/-- findImmediateMatch (lines 118-182): acquire the round's matchlock (null
on contention), read the queue excluding self (the preceding unfiltered read
is log-only and state-neutral), select by skill window, and create the human
match while holding the lock; the lock is released on every exit path (the
success path releases twice — the second compare-and-delete is a no-op), and
a createHumanMatch error is swallowed to null after the release. -/
def findImmediateMatch (pd : ParticipantData) (st : EngineState) :
    Option MatchData × EngineState :=
  let st := { st with events := st.events ++ [EngineEvent.findImmediate pd.participantId] }
  let qk := RedisService.queueKey pd.roundNumber
  let lockKey := "matchlock:round:" ++ toString pd.roundNumber
  let lockValue := pd.participantId ++ "-" ++ toString st.now
  match RedisService.acquireLock st.redis lockKey lockValue with
  | (false, redis1) => (none, { st with redis := redis1 })
  | (true, redis1) =>
    let waitingParticipants := RedisService.getQueueEntries redis1 qk (some pd.participantId)
    if waitingParticipants.isEmpty then
      (none, { st with redis := (RedisService.releaseLock redis1 lockKey lockValue).2 })
    else
      match findBestSkillMatch Config.skillMatchingThreshold pd.skillLevel waitingParticipants with
      | none => (none, { st with redis := (RedisService.releaseLock redis1 lockKey lockValue).2 })
      | some bestMatch =>
        match createHumanMatch pd bestMatch { st with redis := redis1 } with
        | (.ok m, st2) =>
          let redis2 := (RedisService.releaseLock st2.redis lockKey lockValue).2
          let redis3 := (RedisService.releaseLock redis2 lockKey lockValue).2
          (some m, { st2 with redis := redis3 })
        | (.error _, st2) =>
          (none, { st2 with redis := (RedisService.releaseLock st2.redis lockKey lockValue).2 })

/-- startContinuousSearch: registration of the periodic re-scanner (the tick
callback runs outside the modelled sequential trace). -/
def startContinuousSearch (pd : ParticipantData) (st : EngineState) : EngineState :=
  { st with scanners := st.scanners ++ [pd.participantId]
            events := st.events ++ [EngineEvent.scannerStarted pd.participantId] }

/-- setAIFallbackTimeout: arming of the one-shot AI-fallback timer. -/
def setAIFallbackTimeout (pd : ParticipantData) (st : EngineState) : EngineState :=
  { st with matchTimeouts := st.matchTimeouts ++ [pd.participantId]
            events := st.events ++ [EngineEvent.timerArmed pd.participantId] }

/-- cleanupParticipantQueue: defensive removal from the round queue. -/
def cleanupParticipantQueue (participantId : String) (roundNumber : ℤ)
    (st : EngineState) : EngineState :=
  let redis1 := RedisService.removeFromQueue st.redis (RedisService.queueKey roundNumber) participantId
  { st with redis := redis1 }

/-- Result of startMatchmaking as surfaced to the caller. -/
inductive SMResult where
  | alreadySearching
  | matched (m : MatchData)
  | searching (queuePosition : ℤ) (estimatedWaitTime : ℚ)
deriving DecidableEq, Repr

/-- startMatchmaking (lines 28-87): bail out when a search is already active;
otherwise record the search, write status "searching", defensively dequeue,
join the queue (the return value of joinQueue is ignored), try one immediate
match — on success clear the search, fire the match-found callback and
return the match — else start the scanner, arm the AI-fallback timer and
report the searching status with the queue position and estimated wait. The
catch-all error path (degrade to an immediate AI match) is unreachable in
this effect model, whose operations do not throw. -/
def startMatchmaking (pd : ParticipantData) (st : EngineState) : SMResult × EngineState :=
  if (lookupSearch st.activeSearches pd.participantId).isSome then
    (.alreadySearching, st)
  else
    let searches1 := st.activeSearches ++ [(pd.participantId, ⟨st.now, pd.roundNumber, 0⟩)]
    let st1 := { st with activeSearches := searches1 }
    let statusData := [("roundNumber", toString pd.roundNumber),
      ("skillLevel", jsNumStr pd.skillLevel), ("treatmentGroup", pd.treatmentGroup.getD "")]
    let redisA := RedisService.setParticipantStatus st1.redis pd.participantId "searching"
      statusData st1.now
    let st2 := { st1 with redis := redisA }
    let st3 := cleanupParticipantQueue pd.participantId pd.roundNumber st2
    let st4 := (joinQueue pd st3).2
    match findImmediateMatch pd st4 with
    | (some m, st5) =>
      let st6 := { st5 with activeSearches := removeSearch st5.activeSearches pd.participantId }
      let st7 := { st6 with events := st6.events ++ [EngineEvent.matchFoundCallback m.id] }
      (.matched m, st7)
    | (none, st5) =>
      let st6 := startContinuousSearch pd st5
      let st7 := setAIFallbackTimeout pd st6
      (.searching
        (RedisService.getQueuePosition st7.redis (RedisService.queueKey pd.roundNumber)
          pd.participantId)
        (Config.humanSearchTimeoutMs / 1000), st7)

/-- The synthesized fallback AI match of createAIMatch's catch branch
(lines 517-540), returned to the caller when AI-match creation errors. -/
def engineFallbackMatch (pd : ParticipantData) (matchId : String) (now : ℤ) : MatchData :=
  let fallbackOpponentId := "AI-FALLBACK-" ++ pd.participantId.takeRight 4
  { id := matchId
    participant1_id := pd.participantId
    participant2_id := none
    round_number := pd.roundNumber
    match_type := "live"
    status := "active"
    created_at := isoTime now
    isAI := true
    opponent := { id := some "ai_fallback"
                  name := NameUtils.getBotName fallbackOpponentId
                  participant_id := fallbackOpponentId
                  skill_level := 7
                  personality := some "competitive"
                  responsePattern := some "medium" } }

end MatchmakingEngine

/-- Head of a filtered list is the first element satisfying the predicate. -/
theorem filter_head?_eq_find? {α : Type} (p : α → Bool) (l : List α) :
    (l.filter p).head? = l.find? p := by
  induction l with
  | nil => rfl
  | cons x xs ih =>
    by_cases h : p x = true
    · simp [List.filter_cons, h]
    · simp only [List.filter_cons, h, if_false, Bool.false_eq_true, ite_false]
      rw [List.find?_cons_of_neg _ (by simpa using h)]
      exact ih

/-- C2: findBestSkillMatch implements Algorithm A. An empty candidate list
yields none; when some candidate lies within the threshold (a distance of
exactly the threshold qualifies, strictly more does not), the FIFO-earliest
such candidate is returned (the first satisfying find?); otherwise the
FIFO-earliest candidate minimizing the skill distance is returned (every
earlier candidate has strictly larger distance, none anywhere has smaller).
The function is pure in its inputs, hence deterministic. -/
theorem findBestSkillMatch_algorithmA (T s : ℚ) (l : List QueueEntry) :
    (l = [] → MatchmakingEngine.findBestSkillMatch T s l = none)
    ∧ ((∃ c ∈ l, |c.skillLevel - s| ≤ T) →
        MatchmakingEngine.findBestSkillMatch T s l
          = l.find? (fun c => decide (|c.skillLevel - s| ≤ T)))
    ∧ (l ≠ [] → (∀ c ∈ l, ¬ |c.skillLevel - s| ≤ T) →
        ∃ l1 m l2, l = l1 ++ m :: l2
          ∧ MatchmakingEngine.findBestSkillMatch T s l = some m
          ∧ (∀ c ∈ l1, |m.skillLevel - s| < |c.skillLevel - s|)
          ∧ ∀ c ∈ l, |m.skillLevel - s| ≤ |c.skillLevel - s|) := by
  refine ⟨?_, ?_, ?_⟩
  · rintro rfl; rfl
  · rintro ⟨c, hc, hcT⟩
    cases l with
    | nil => cases hc
    | cons w rest =>
      rw [← filter_head?_eq_find?]
      rcases hfs : (w :: rest).filter (fun c => decide (|c.skillLevel - s| ≤ T)) with _ | ⟨a, as⟩
      · have hmem : c ∈ (w :: rest).filter (fun c => decide (|c.skillLevel - s| ≤ T)) :=
          List.mem_filter.mpr ⟨hc, by simpa using hcT⟩
        rw [hfs] at hmem
        cases hmem
      · simp only [MatchmakingEngine.findBestSkillMatch]
        rw [hfs]
        rfl
  · intro hne hall
    cases l with
    | nil => exact absurd rfl hne
    | cons w rest =>
      rcases hfs : (w :: rest).filter (fun c => decide (|c.skillLevel - s| ≤ T)) with _ | ⟨a, as⟩
      · have heq : MatchmakingEngine.findBestSkillMatch T s (w :: rest)
            = some (closestReduce (fun c => |c.skillLevel - s|) w rest) := by
          simp only [MatchmakingEngine.findBestSkillMatch]
          rw [hfs]
        obtain ⟨l1, l2, hdec, hpre, hmin⟩ :=
          closestReduce_first (fun c => |c.skillLevel - s|) w rest
        exact ⟨l1, _, l2, hdec, heq, hpre, hmin⟩
      · have hmem : a ∈ (w :: rest).filter (fun c => decide (|c.skillLevel - s| ≤ T)) := by
          rw [hfs]; exact List.mem_cons_self _ _
        obtain ⟨hin, hp⟩ := List.mem_filter.mp hmem
        exact absurd (by simpa using hp) (hall a hin)

/-- Concrete queue entries for the C2 witness. -/
def qeA : QueueEntry :=
  ⟨"p-a", "Ann", 1, 7.5, "control", 100, "waiting"⟩

/-- Second concrete queue entry for the C2 witness. -/
def qeB : QueueEntry :=
  ⟨"p-b", "Ben", 1, 6.9, "control", 101, "waiting"⟩

/-- C2 witness: at skill 7 and threshold 1.5 the first in-window candidate of
a concrete two-entry queue is selected. -/
theorem findBestSkillMatch_algorithmA_witness :
    MatchmakingEngine.findBestSkillMatch (3/2) 7 [qeA, qeB] = some qeA := by
  have h := (findBestSkillMatch_algorithmA (3/2) 7 [qeA, qeB]).2.1
    ⟨qeA, List.mem_cons_self _ _, by norm_num [qeA, abs_le]⟩
  rw [h, List.find?_cons_of_pos]
  norm_num [qeA, abs_le]

/-- A successful createHumanMatch carries exactly the two distinct
participant ids into the record. -/
theorem createHumanMatch_ok_ids (a : ParticipantData) (b : QueueEntry) (st : EngineState)
    (m : MatchData) (st' : EngineState)
    (h : MatchmakingEngine.createHumanMatch a b st = (.ok m, st')) :
    m.participant1_id = a.participantId ∧ m.participant2_id = some b.participantId
      ∧ a.participantId ≠ b.participantId := by
  by_cases hab : a.participantId = b.participantId
  · simp [MatchmakingEngine.createHumanMatch, hab] at h
  · refine ⟨?_, ?_, hab⟩ <;>
    · simp only [MatchmakingEngine.createHumanMatch, hab, if_false, Prod.mk.injEq,
        Except.ok.injEq] at h
      obtain ⟨hm, -⟩ := h
      rw [← hm]

/-- C1: no match pairs a participant with themselves. createHumanMatch
refuses a self-match with an error before writing anything (the state is
returned untouched); a successful createHumanMatch always has
participant1_id ≠ participant2_id; the queue read of findImmediateMatch
excludes the searching participant (for any truthy id), so no candidate
handed to the skill selection is the searcher; and every match record
findImmediateMatch produces has participant1_id ≠ participant2_id. -/
theorem engine_no_self_match :
    (∀ (a : ParticipantData) (b : QueueEntry) (st : EngineState),
      a.participantId = b.participantId →
        MatchmakingEngine.createHumanMatch a b st = (.error "Self-match attempted", st))
    ∧ (∀ (a : ParticipantData) (b : QueueEntry) (st : EngineState) (m : MatchData)
        (st' : EngineState), MatchmakingEngine.createHumanMatch a b st = (.ok m, st') →
          m.participant2_id ≠ some m.participant1_id)
    ∧ (∀ (st : RedisStore) (key pid : String), pid ≠ "" →
        ∀ c ∈ RedisService.getQueueEntries st key (some pid), c.participantId ≠ pid)
    ∧ (∀ (pd : ParticipantData) (st : EngineState) (m : MatchData) (st' : EngineState),
        MatchmakingEngine.findImmediateMatch pd st = (some m, st') →
          m.participant2_id ≠ some m.participant1_id) := by
  have hok : ∀ (a : ParticipantData) (b : QueueEntry) (st : EngineState) (m : MatchData)
      (st' : EngineState), MatchmakingEngine.createHumanMatch a b st = (.ok m, st') →
        m.participant2_id ≠ some m.participant1_id := by
    intro a b st m st' h
    obtain ⟨h1, h2, hab⟩ := createHumanMatch_ok_ids a b st m st' h
    rw [h1, h2]
    intro hcon
    exact hab (Option.some.injEq .. ▸ hcon).symm
  refine ⟨?_, hok, ?_, ?_⟩
  · intro a b st hab
    simp [MatchmakingEngine.createHumanMatch, hab]
  · intro st key pid hne c hcmem
    have hmem : c ∈ (st.queues key).filter (fun c => decide (c.participantId ≠ pid)) := by
      simpa [RedisService.getQueueEntries, hne] using hcmem
    simpa using (List.mem_filter.mp hmem).2
  · intro pd st m st' h
    simp only [MatchmakingEngine.findImmediateMatch] at h
    split at h
    · simp at h
    · split at h
      · simp at h
      · split at h
        · simp at h
        · split at h
          · rename_i m' st2 heq
            simp only [Prod.mk.injEq, Option.some.injEq] at h
            obtain ⟨hm, -⟩ := h
            rw [← hm]
            exact hok _ _ _ _ _ heq
          · simp at h

/-- Concrete participant p-1 for witnesses and counterexamples. -/
def pd1 : ParticipantData :=
  { participantId := "p-1", participantName := some "Alice", roundNumber := 1,
    skillLevel := 7, treatmentGroup := some "control" }

/-- Empty engine state with a fixed clock. -/
def st0 : EngineState :=
  { redis := emptyRedis, db := ⟨[], []⟩, activeSearches := [], matchTimeouts := [],
    scanners := [], events := [], now := 1000, nextId := 0 }

/-- Queue entry of a second participant p-2. -/
def qe2 : QueueEntry := ⟨"p-2", "Bob", 1, 7.5, "control", 900, "waiting"⟩

/-- Queue entry carrying p-1's own id (a would-be self match). -/
def qeSelf : QueueEntry := ⟨"p-1", "Alice", 1, 7, "control", 900, "waiting"⟩

/-- Redis store whose round-1 queue holds p-1's own entry and p-2's. -/
def storeQ : RedisStore :=
  { emptyRedis with queues := updMap emptyRedis.queues (RedisService.queueKey 1) [qeSelf, qe2] }

/-- C1 witness: the concrete self-match call errors with the state untouched,
and the self-excluding queue read of a queue containing p-1's own entry never
returns p-1. -/
theorem engine_no_self_match_witness :
    MatchmakingEngine.createHumanMatch pd1 qeSelf st0 = (.error "Self-match attempted", st0)
    ∧ ∀ c ∈ RedisService.getQueueEntries storeQ (RedisService.queueKey 1) (some "p-1"),
        c.participantId ≠ "p-1" :=
  ⟨engine_no_self_match.1 pd1 qeSelf st0 rfl,
   engine_no_self_match.2.2.1 storeQ (RedisService.queueKey 1) "p-1" (by decide)⟩

/-- C6: startMatchmaking is idempotent under an active search: when an
active-search record already exists for the participant, a second call
returns already_searching and leaves the entire state — queue entries,
statuses, search and timer maps, scanners, events — unchanged. -/
theorem startMatchmaking_idempotent (pd : ParticipantData) (st : EngineState)
    (h : (MatchmakingEngine.lookupSearch st.activeSearches pd.participantId).isSome) :
    MatchmakingEngine.startMatchmaking pd st = (.alreadySearching, st) := by
  simp [MatchmakingEngine.startMatchmaking, h]

/-- Engine state with an active search for p-1. -/
def searchingState : EngineState := { st0 with activeSearches := [("p-1", ⟨0, 1, 0⟩)] }

/-- C6 witness: the idempotence theorem at the concrete searching state. -/
theorem startMatchmaking_idempotent_witness :
    MatchmakingEngine.startMatchmaking pd1 searchingState = (.alreadySearching, searchingState) :=
  startMatchmaking_idempotent pd1 searchingState (by rfl)

/-- C5 counterexample: the Engine writes human matches with match_type
"live" — neither of the claimed values "live-human" and "human-vs-ai" (AI
matches get "human_vs_ai", with an underscore). -/
theorem match_type_counterexample :
    (match (MatchmakingEngine.createHumanMatch pd1 qe2 st0).1 with
      | .ok m => some m.match_type
      | .error _ => none) = some "live"
    ∧ ("live" : String) ≠ "live-human" ∧ ("live" : String) ≠ "human-vs-ai" := by
  exact ⟨rfl, by decide, by decide⟩

/-- C5 amended: match types are drawn from {live, human_vs_ai}, not the
claimed {live-human, human-vs-ai}: createHumanMatch writes match_type "live"
with isAI = false; AIOpponentService.createAIMatch writes match_type
"human_vs_ai" with participant2_id null and isAI = true; and the synthesized
fallback of the Engine's createAIMatch catch branch writes match_type "live"
(not an AI-specific type) with participant2_id null and isAI = true. -/
theorem match_type_values :
    (∀ (a : ParticipantData) (b : QueueEntry) (st : EngineState) (m : MatchData)
        (st' : EngineState), MatchmakingEngine.createHumanMatch a b st = (.ok m, st') →
          m.match_type = "live" ∧ m.isAI = false)
    ∧ (∀ (pid : String) (round : ℤ) (skill u1 u2 : ℚ) (oid mid : String) (now : ℤ),
        (AIOpponentService.createAIMatch pid round skill u1 u2 oid mid now).match_type
            = "human_vs_ai"
          ∧ (AIOpponentService.createAIMatch pid round skill u1 u2 oid mid now).participant2_id
            = none
          ∧ (AIOpponentService.createAIMatch pid round skill u1 u2 oid mid now).isAI = true)
    ∧ (∀ (pd : ParticipantData) (mid : String) (now : ℤ),
        (MatchmakingEngine.engineFallbackMatch pd mid now).match_type = "live"
          ∧ (MatchmakingEngine.engineFallbackMatch pd mid now).participant2_id = none
          ∧ (MatchmakingEngine.engineFallbackMatch pd mid now).isAI = true) := by
  refine ⟨?_, fun _ _ _ _ _ _ _ _ => ⟨rfl, rfl, rfl⟩, fun _ _ _ => ⟨rfl, rfl, rfl⟩⟩
  intro a b st m st' h
  by_cases hab : a.participantId = b.participantId
  · simp [MatchmakingEngine.createHumanMatch, hab] at h
  · simp only [MatchmakingEngine.createHumanMatch, hab, if_false, Prod.mk.injEq,
      Except.ok.injEq] at h
    obtain ⟨hm, -⟩ := h
    rw [← hm]
    exact ⟨rfl, rfl⟩

/-- The match record produced by the concrete createHumanMatch call. -/
def humanMatchEx : MatchData :=
  match (MatchmakingEngine.createHumanMatch pd1 qe2 st0).1 with
  | .ok m => m
  | .error _ => MatchmakingEngine.engineFallbackMatch pd1 "unused" 0

/-- The engine state after the concrete createHumanMatch call. -/
def humanMatchExState : EngineState := (MatchmakingEngine.createHumanMatch pd1 qe2 st0).2

/-- C5 amended witness: the human-match conjunct at the concrete call. -/
theorem match_type_values_witness :
    humanMatchEx.match_type = "live" ∧ humanMatchEx.isAI = false :=
  match_type_values.1 pd1 qe2 st0 humanMatchEx humanMatchExState (by rfl)

/-- Persistent database holding an active match for p-1 in round 1 — the
condition under which joinQueue rejects the enqueue. -/
def dbWithActive : Database := ⟨[⟨"m-db", "p-1", none, 1, "active"⟩], []⟩

/-- Engine state in which p-1's queue add will be rejected. -/
def stReject : EngineState := { st0 with db := dbWithActive }

/-- C3 counterexample: with the queue add rejected (joinQueue refuses the
enqueue because p-1 already holds an active match), startMatchmaking does not
abort and does not return the existing status: it attempts
findImmediateMatch, starts the continuous scanner, arms the AI-fallback
timer and returns a searching status with queue position −1. -/
theorem startMatchmaking_rejection_counterexample :
    (MatchmakingEngine.startMatchmaking pd1 stReject).1
        = .searching (-1) (Config.humanSearchTimeoutMs / 1000)
    ∧ (MatchmakingEngine.startMatchmaking pd1 stReject).2.matchTimeouts = ["p-1"]
    ∧ (MatchmakingEngine.startMatchmaking pd1 stReject).2.scanners = ["p-1"]
    ∧ EngineEvent.findImmediate "p-1"
        ∈ (MatchmakingEngine.startMatchmaking pd1 stReject).2.events
    ∧ Config.humanSearchTimeoutMs / 1000 = 45 := by
  refine ⟨rfl, rfl, rfl, ?_, by norm_num [Config.humanSearchTimeoutMs]⟩
  decide

/-- A queue read of an empty queue is empty, with or without exclusion. -/
theorem getQueueEntries_nil (store : RedisStore) (key : String) (e : Option String)
    (h : store.queues key = []) : RedisService.getQueueEntries store key e = [] := by
  rcases e with _ | x
  · simp [RedisService.getQueueEntries, h]
  · simp only [RedisService.getQueueEntries, h]
    split_ifs <;> simp


/-- Reading the status field straight after the Engine's setParticipantStatus
write yields "searching" (the extra data fields never override status). -/
theorem getStatus_after_set_engine (store : RedisStore) (pid r sk tg : String) (now : ℤ) :
    RedisService.getParticipantStatus (RedisService.setParticipantStatus store pid "searching"
      [("roundNumber", r), ("skillLevel", sk), ("treatmentGroup", tg)] now) pid "status"
      = some "searching" := by
  simp [RedisService.getParticipantStatus, RedisService.setParticipantStatus, updMap, alookup]

/-- joinQueue rejects (returning none and leaving the state untouched) when
the database already holds an active match and the Redis status is not
"matched". -/
theorem joinQueue_rejected (pd : ParticipantData) (st : EngineState)
    (hdb : (DatabaseService.getActiveMatchForParticipant st.db pd.participantId
      pd.roundNumber).isSome)
    (hstatus : RedisService.getParticipantStatus st.redis pd.participantId "status"
      ≠ some "matched") :
    MatchmakingEngine.joinQueue pd st = (none, st) := by
  simp [MatchmakingEngine.joinQueue, hstatus, hdb]

/-- findImmediateMatch on an empty round queue returns none and touches only
the lock and the event trace: an immediate-match event is appended, while
timers, scanners, searches and the (empty) queue are unchanged. -/
theorem findImmediateMatch_empty (pd : ParticipantData) (st : EngineState)
    (h : st.redis.queues (RedisService.queueKey pd.roundNumber) = []) :
    (MatchmakingEngine.findImmediateMatch pd st).1 = none
    ∧ (MatchmakingEngine.findImmediateMatch pd st).2.events
        = st.events ++ [EngineEvent.findImmediate pd.participantId]
    ∧ (MatchmakingEngine.findImmediateMatch pd st).2.matchTimeouts = st.matchTimeouts
    ∧ (MatchmakingEngine.findImmediateMatch pd st).2.scanners = st.scanners
    ∧ (MatchmakingEngine.findImmediateMatch pd st).2.activeSearches = st.activeSearches
    ∧ (MatchmakingEngine.findImmediateMatch pd st).2.redis.queues
        (RedisService.queueKey pd.roundNumber) = [] := by
  rcases hl : st.redis.locks ("matchlock:round:" ++ toString pd.roundNumber) with _ | v
  · refine ⟨?_, ?_, ?_, ?_, ?_, ?_⟩ <;>
    · simp only [MatchmakingEngine.findImmediateMatch, RedisService.acquireLock, hl]
      rw [getQueueEntries_nil _ _ _ (by simpa using h)]
      simp [RedisService.releaseLock, updMap, h]
  · refine ⟨?_, ?_, ?_, ?_, ?_, ?_⟩ <;>
    · simp only [MatchmakingEngine.findImmediateMatch, RedisService.acquireLock, hl]
      try simp [h]

/-- C3 amended: a rejected queue add does not abort startMatchmaking. When no
search is active for the participant, the persistent database already holds
an active or pending match for the round (so joinQueue rejects the enqueue
before touching the queue or the stats), and the round queue is empty,
startMatchmaking still proceeds: it attempts findImmediateMatch, starts the
continuous scanner, arms the AI-fallback timer, returns a searching status
(queue position −1, estimated wait humanSearchTimeoutMs/1000) — not the
participant's existing status — and the only effect of the rejection is that
no queue entry is added (the round queue stays empty). -/
theorem startMatchmaking_ignores_rejection (pd : ParticipantData) (st : EngineState)
    (h1 : MatchmakingEngine.lookupSearch st.activeSearches pd.participantId = none)
    (h2 : (DatabaseService.getActiveMatchForParticipant st.db pd.participantId
        pd.roundNumber).isSome)
    (h3 : st.redis.queues (RedisService.queueKey pd.roundNumber) = []) :
    (MatchmakingEngine.startMatchmaking pd st).1
        = .searching (-1) (Config.humanSearchTimeoutMs / 1000)
    ∧ pd.participantId ∈ (MatchmakingEngine.startMatchmaking pd st).2.matchTimeouts
    ∧ pd.participantId ∈ (MatchmakingEngine.startMatchmaking pd st).2.scanners
    ∧ EngineEvent.findImmediate pd.participantId
        ∈ (MatchmakingEngine.startMatchmaking pd st).2.events
    ∧ (MatchmakingEngine.startMatchmaking pd st).2.redis.queues
        (RedisService.queueKey pd.roundNumber) = [] := by
  simp only [MatchmakingEngine.startMatchmaking, h1, Option.isSome_none, Bool.false_eq_true,
    if_false, ite_false]
  set stC := MatchmakingEngine.cleanupParticipantQueue pd.participantId pd.roundNumber
    { st with
      activeSearches := st.activeSearches ++ [(pd.participantId, ⟨st.now, pd.roundNumber, 0⟩)]
      redis := RedisService.setParticipantStatus st.redis pd.participantId "searching"
        [("roundNumber", toString pd.roundNumber), ("skillLevel", jsNumStr pd.skillLevel),
          ("treatmentGroup", pd.treatmentGroup.getD "")] st.now } with hstC
  have hdbC : stC.db = st.db := rfl
  have hstatusC : RedisService.getParticipantStatus stC.redis pd.participantId "status"
      = some "searching" :=
    getStatus_after_set_engine st.redis pd.participantId _ _ _ st.now
  have hQC : stC.redis.queues (RedisService.queueKey pd.roundNumber) = [] := by
    rw [hstC]
    simp [MatchmakingEngine.cleanupParticipantQueue, RedisService.removeFromQueue,
      RedisService.setParticipantStatus, updMap, h3, RedisService.removeFirstEntry]
  have hJQ := joinQueue_rejected pd stC (by rw [hdbC]; exact h2) (by rw [hstatusC]; simp)
  rw [hJQ]
  rcases hfi : MatchmakingEngine.findImmediateMatch pd stC with ⟨r, stF⟩
  have hF := findImmediateMatch_empty pd stC hQC
  rw [hfi] at hF
  simp only at hF
  obtain ⟨hr, hev, hmt, hsc, has, hq⟩ := hF
  subst hr
  refine ⟨?_, ?_, ?_, ?_, ?_⟩
  · simp [MatchmakingEngine.setAIFallbackTimeout, MatchmakingEngine.startContinuousSearch,
      RedisService.getQueuePosition, hq]
  · simp [MatchmakingEngine.setAIFallbackTimeout, MatchmakingEngine.startContinuousSearch]
  · simp [MatchmakingEngine.setAIFallbackTimeout, MatchmakingEngine.startContinuousSearch]
  · simp [MatchmakingEngine.setAIFallbackTimeout, MatchmakingEngine.startContinuousSearch, hev]
  · simp [MatchmakingEngine.setAIFallbackTimeout, MatchmakingEngine.startContinuousSearch, hq]

/-- C3 amended witness: the rejected-enqueue behaviour at the concrete state
whose database already holds an active match for p-1. -/
theorem startMatchmaking_ignores_rejection_witness :
    (MatchmakingEngine.startMatchmaking pd1 stReject).1
        = .searching (-1) (Config.humanSearchTimeoutMs / 1000)
    ∧ "p-1" ∈ (MatchmakingEngine.startMatchmaking pd1 stReject).2.scanners := by
  have h := startMatchmaking_ignores_rejection pd1 stReject (by rfl) (by rfl) (by rfl)
  exact ⟨h.1, h.2.2.1⟩

/-- A connected push session as tracked by the Dispatcher's connectedClients
map (only the registered name matters to the materialization). -/
structure ClientInfo where
  name : Option String
deriving DecidableEq, Repr

/-- Per-peer materialized match_found payload: the match record spread with a
rebuilt opponent descriptor, the receiver's role, and a timestamp. -/
structure FoundView where
  base : MatchData
  opponent : OppDesc
  myRole : String
  timestamp : ℤ
deriving DecidableEq, Repr

namespace WebSocketService

/-- Session-or-placeholder arm of the name fallback chain (the JS || chain;
empty strings are falsy). -/
def fallbackName (connectedClients : String → Option ClientInfo) (pid : String) : String :=
  match connectedClients pid with
  | some ci =>
    match ci.name with
    | some n => if n ≠ "" then n else "Player " ++ pid.takeRight 4
    | none => "Player " ++ pid.takeRight 4
  | none => "Player " ++ pid.takeRight 4

/-- Name resolution of the materialization: the match record's stored name,
else the registered session name, else the Player placeholder. -/
def resolveName (recordName : Option String) (connectedClients : String → Option ClientInfo)
    (pid : String) : String :=
  match recordName with
  | some n => if n ≠ "" then n else fallbackName connectedClients pid
  | none => fallbackName connectedClients pid

/-- notifyMatchFound (WebSocketService.js lines 407-480): coerce isAI (a
boolean already on the Engine callback path, so the string coercion at entry
is the identity on this typed record); for AI matches push the unchanged
record to participant1 with myRole "participant1"; for human matches build
two views, each with the other peer as opponent — participant1's view carries
participant2's recorded skill parsed from the match record's opponent
descriptor, participant2's view hard-codes default skill 7 for participant1.
Returns the pushes handed to sendToParticipant (delivery additionally needs a
live session). A human record without participant2 throws on the id slice
and the catch swallows it, pushing nothing. -/
def notifyMatchFound (connectedClients : String → Option ClientInfo) (md : MatchData)
    (now : ℤ) : List (String × FoundView) :=
  if md.isAI then
    [(md.participant1_id, ⟨md, md.opponent, "participant1", now⟩)]
  else
    match md.participant2_id with
    | none => []
    | some p2 =>
      let participant1Name := resolveName md.participant1_name connectedClients md.participant1_id
      let participant2Name := resolveName md.participant2_name connectedClients p2
      let originalOpponent := md.opponent
      let participant1View : FoundView :=
        ⟨md, { name := participant2Name
               participant_id := p2
               skill_level := originalOpponent.skill_level }, "participant1", now⟩
      let participant2View : FoundView :=
        ⟨md, { name := participant1Name
               participant_id := md.participant1_id
               skill_level := 7 }, "participant2", now⟩
      [(md.participant1_id, participant1View), (p2, participant2View)]

end WebSocketService

/-- C9: in the Dispatcher's match-found materialization of a human-vs-human
match, the view pushed to participant1 carries participant2's recorded
skill_level (from the match record's opponent descriptor), while the view
pushed to participant2 always reports skill_level 7 for participant1,
whatever participant1's actual skill; myRole is "participant1" and
"participant2" respectively. -/
theorem notifyMatchFound_views (clients : String → Option ClientInfo) (md : MatchData)
    (now : ℤ) (p2 : String) (hAI : md.isAI = false) (hp2 : md.participant2_id = some p2) :
    ∃ v1 v2, WebSocketService.notifyMatchFound clients md now
        = [(md.participant1_id, v1), (p2, v2)]
      ∧ v1.opponent.skill_level = md.opponent.skill_level
      ∧ v1.opponent.participant_id = p2
      ∧ v1.myRole = "participant1"
      ∧ v2.opponent.skill_level = 7
      ∧ v2.opponent.participant_id = md.participant1_id
      ∧ v2.myRole = "participant2" := by
  refine ⟨⟨md, { name := WebSocketService.resolveName md.participant2_name clients p2
                 participant_id := p2
                 skill_level := md.opponent.skill_level }, "participant1", now⟩,
          ⟨md, { name := WebSocketService.resolveName md.participant1_name clients
                           md.participant1_id
                 participant_id := md.participant1_id
                 skill_level := 7 }, "participant2", now⟩,
          ?_, rfl, rfl, rfl, rfl, rfl, rfl⟩
  simp [WebSocketService.notifyMatchFound, hAI, hp2]

/-- C9 witness: the materialization facts at the concrete human match record
produced by the Engine, with no registered sessions. -/
theorem notifyMatchFound_views_witness :
    ∃ v1 v2, WebSocketService.notifyMatchFound (fun _ => none) humanMatchEx 2000
        = [(humanMatchEx.participant1_id, v1), ("p-2", v2)]
      ∧ v1.opponent.skill_level = humanMatchEx.opponent.skill_level
      ∧ v1.opponent.participant_id = "p-2"
      ∧ v1.myRole = "participant1"
      ∧ v2.opponent.skill_level = 7
      ∧ v2.opponent.participant_id = humanMatchEx.participant1_id
      ∧ v2.myRole = "participant2" :=
  notifyMatchFound_views (fun _ => none) humanMatchEx 2000 "p-2" (by rfl) (by rfl)
